import Mathlib

/-!
Shallow embedding of the creator-discovery pipeline
(`youtube/metrics.py`, `youtube/filters.py`, `youtube/aggregation.py`,
`youtube/youtube_api.py`, `youtube/pipeline.py`).

Modelling conventions:
* Python dicts keyed by strings become association lists
  (`List (String × α)`) with unique keys and insertion order preserved,
  matching CPython dict semantics.
* Machine floats become `ℚ`; Python ints become `ℤ`.  `round` is
  round-half-to-even (`pyRound`), as in Python 3.
* `datetime` timestamps become `ℤ`, measured in days, so that a
  `timedelta.days` difference is the plain integer difference.
* Remote endpoints are modelled as explicit response streams: the n-th
  request made by a loop consumes the n-th element of the stream.
-/

namespace MT

/-- A video returned by the search endpoint (`search_videos` item). -/
structure VideoC where
  video_id : String
  title : String
  channel_id : String
  channel_name : String
deriving DecidableEq, Inhabited

/-- Per-video statistics entry built by `get_video_statistics`:
`viewCount`, `publishedAt`, `likeCount`, `commentCount`, `duration`. -/
structure VStat where
  viewCount : ℤ
  publishedAt : Option ℤ
  likeCount : ℤ
  commentCount : ℤ
  duration : String
deriving DecidableEq, Inhabited

/-- Per-channel statistics entry built by `get_channel_statistics`.
The ISO-8601 `publishedAt` string arrives pre-parsed as an optional
timestamp (`none` covers the empty and the unparseable string, which the
source maps to `None` via its try/except). -/
structure CStat where
  subscriberCount : ℤ
  videoCount : ℤ
  viewCount : ℤ
  customUrl : String
  country : String
  publishedAt : Option ℤ
  thumbnailUrl : String
  uploadsPlaylistId : String
  description : String
deriving DecidableEq, Inhabited

/-- A video dict as produced by `filter_videos_by_views`: the search
fields plus the statistics fields spliced in. -/
structure FVideo where
  video_id : String
  title : String
  channel_id : String
  channel_name : String
  views : ℤ
  published_at : Option ℤ
  likes : ℤ
  comment_count : ℤ
  duration_seconds : ℤ
deriving DecidableEq, Inhabited

/-- A video dict stored inside a channel record
(built in `aggregate_channels`). -/
structure ChanVideo where
  title : String
  url : String
  views : ℤ
  published_at : Option ℤ
  likes : ℤ
  comment_count : ℤ
  duration_seconds : ℤ
  keywords : List String
deriving DecidableEq, Inhabited

/-- A channel record dict, generic in the representation of a stored
video (`ChanVideo` for the value-level model, `ℕ` heap pointers for the
object-identity model of `merge_channels`).  The metric fields are set
to defaults on creation and filled by the second phase of
`aggregate_channels`, mirroring the keys the source adds to the dict. -/
structure ChannelRecG (V : Type) where
  channel_name : String
  channel_id : String
  channel_url : String
  subscriber_count : ℤ
  total_videos : ℤ
  total_channel_views : ℤ
  country : String
  created_at : Option ℤ
  thumbnail_url : String
  uploads_playlist_id : String
  description : String
  videos : List V
  median_views : ℤ := 0
  average_views : ℚ := 0
  publish_interval_days : Option ℚ := none
  last_published : Option ℤ := none
  median_likes : ℤ := 0
  median_comments : ℤ := 0
  avg_duration : ℤ := 0
  views_to_subs_pct : ℚ := 0
  channel_score : ℤ := 0
deriving DecidableEq, Inhabited

/-- Channel record at the value level. -/
abbrev ChannelRec := ChannelRecG ChanVideo

/-- A Python dict keyed by strings, as an insertion-ordered association
list with unique keys. -/
abbrev AList (α : Type) := List (String × α)

/-- Dict update: rewrite the value stored at key `k` (dicts have unique
keys, so at most one entry changes). -/
def updA {α : Type} (l : AList α) (k : String) (f : α → α) : AList α :=
  l.map (fun p => if p.1 = k then (p.1, f p.2) else p)

/-- The keys of a dict. -/
def keysA {α : Type} (l : AList α) : List String := l.map Prod.fst

-- ===========================================================================
-- metrics.py
-- ===========================================================================

/-- Consume a maximal run of digits followed by the literal `c`; on
failure leave the input untouched (the regex group is optional). -/
def numUnit (s : List Char) (c : Char) : ℕ × List Char :=
  let ds := s.takeWhile Char.isDigit
  let rest := s.dropWhile Char.isDigit
  if ds ≠ [] then
    match rest with
    | r :: rs => if r = c then (ds.foldl (fun a d => a * 10 + d.toNat - 48) 0, rs) else (0, s)
    | [] => (0, s)
  else (0, s)

/-- Source `parse_iso8601_duration`: parse `PT(\d+H)?(\d+M)?(\d+S)?` into
seconds; any string not matching the anchored pattern yields 0. -/
def parse_iso8601_duration (duration : String) : ℤ :=
  if duration = "" then 0
  else
    match duration.data with
    | 'P' :: 'T' :: rest =>
        let (h, r1) := numUnit rest 'H'
        let (m, r2) := numUnit r1 'M'
        let (s, _) := numUnit r2 'S'
        (h : ℤ) * 3600 + (m : ℤ) * 60 + (s : ℤ)
    | _ => 0

/-- Ascending insertion of an integer into a sorted list. -/
def insAsc (x : ℤ) : List ℤ → List ℤ
  | [] => [x]
  | y :: ys => if x ≤ y then x :: y :: ys else y :: insAsc x ys

/-- Python `sorted` on integers (ascending). -/
def sortAsc (l : List ℤ) : List ℤ := l.foldr insAsc []

/-- Source `calculate_average_views`: mean of the per-video view counts,
`0.0` on an empty video list. -/
def calculate_average_views (c : ChannelRec) : ℚ :=
  if c.videos = [] then 0
  else ((c.videos.map ChanVideo.views).sum : ℚ) / (c.videos.length : ℚ)

/-- Median of a list of integers, Python-style: sort ascending, take the
middle element, or the floor-division average of the two middle ones. -/
def medianOf (xs : List ℤ) : ℤ :=
  let vs := sortAsc xs
  let mid := vs.length / 2
  if vs.length % 2 = 0 then (vs.getD (mid - 1) 0 + vs.getD mid 0).fdiv 2
  else vs.getD mid 0

/-- Source `calculate_median_views`: median view count, 0 on no videos. -/
def calculate_median_views (c : ChannelRec) : ℤ :=
  if c.videos = [] then 0 else medianOf (c.videos.map ChanVideo.views)

/-- Source `calculate_median_likes`: median like count, 0 on no videos. -/
def calculate_median_likes (c : ChannelRec) : ℤ :=
  if c.videos = [] then 0 else medianOf (c.videos.map ChanVideo.likes)

/-- Source `calculate_median_comments`: median comment count, 0 on no videos. -/
def calculate_median_comments (c : ChannelRec) : ℤ :=
  if c.videos = [] then 0 else medianOf (c.videos.map ChanVideo.comment_count)

/-- Source `calculate_avg_duration`: floor-average of the strictly positive
durations, 0 when none are positive. -/
def calculate_avg_duration (c : ChannelRec) : ℤ :=
  let ds := (c.videos.map ChanVideo.duration_seconds).filter (fun d => 0 < d)
  if ds = [] then 0 else (ds.sum).fdiv (ds.length : ℤ)

/-- Source `calculate_views_to_subs_ratio` (renamed here, and the matching
dict key with it): median views over subscribers as a percentage, 0 when
the channel has zero subscribers. -/
def calculate_views_to_subs_pct (c : ChannelRec) : ℚ :=
  if c.subscriber_count = 0 then 0
  else ((c.median_views : ℚ) / (c.subscriber_count : ℚ)) * 100

/-- Source `calculate_publish_interval`: mean day-gap between consecutive
uploads (dates sorted descending), `none` with fewer than two dates. -/
def calculate_publish_interval (c : ChannelRec) : Option ℚ :=
  let dates := (sortAsc (c.videos.filterMap ChanVideo.published_at)).reverse
  if dates.length < 2 then none
  else
    let intervals := (List.range (dates.length - 1)).map
      (fun i => dates.getD i 0 - dates.getD (i + 1) 0)
    if intervals = [] then none
    else some ((intervals.sum : ℚ) / (intervals.length : ℚ))

/-- Source `get_last_published`: latest publish date among the videos. -/
def get_last_published (c : ChannelRec) : Option ℤ :=
  (c.videos.filterMap ChanVideo.published_at).max?

/-- Source `format_publish_interval`: bucket an average day-gap into a
human-readable cadence label. -/
def format_publish_interval (days : Option ℚ) : String :=
  match days with
  | none => "N/A"
  | some d =>
    if d < 1 then "Multiple per day"
    else if d < 2 then "Daily"
    else if d < 4 then "Every few days"
    else if d < 8 then "Weekly"
    else if d < 15 then "Every 2 weeks"
    else if d < 22 then "Every 3 weeks"
    else if d < 45 then "Monthly"
    else if d < 75 then "Every 2 months"
    else "Infrequent"

/-- Python 3 `round` on a rational: round half to even. -/
def pyRound (q : ℚ) : ℤ :=
  let f := ⌊q⌋
  if q - f < 1/2 then f
  else if 1/2 < q - f then f + 1
  else if f % 2 = 0 then f else f + 1

/-- Activity block of `calculate_channel_score`: a bucket score from the
publish interval (`None` and intervals above 60 days score lowest). -/
def activityScore (interval_days : Option ℚ) : ℚ :=
  match interval_days with
  | none => 30
  | some d =>
    if 60 < d then 30
    else if 30 < d then 50
    else if 14 < d then 70
    else if 7 < d then 85
    else 100

/-- Content-performance block of `calculate_channel_score`: a bucket
score from the views-to-subscribers ratio. -/
def perfScore (views_to_subs : ℚ) : ℚ :=
  if views_to_subs < 2 then 20
  else if views_to_subs < 5 then 40
  else if views_to_subs < 10 then 60
  else if views_to_subs < 20 then 80
  else 100

/-- The `like_ratio` / `comment_ratio` locals of
`calculate_channel_score`: a count as a percentage of the median views,
0 when the median views are not positive. -/
def ratioPct (num den : ℤ) : ℚ :=
  if 0 < den then ((num : ℚ) / (den : ℚ)) * 100 else 0

/-- Engagement block of `calculate_channel_score`: like and comment
ratios against the 4% / 0.5% reference points, each capped at 100, then
blended 70/30. -/
def engagementScore (median_views median_likes median_comments : ℤ) : ℚ :=
  let like_score : ℚ := min 100 ((ratioPct median_likes median_views / 4) * 100)
  let comment_score : ℚ := min 100 ((ratioPct median_comments median_views / (1/2)) * 100)
  like_score * (7/10) + comment_score * (3/10)

/-- Source `calculate_channel_score`: 30% activity bucket + 35% performance
bucket + 35% engagement blend, rounded to the nearest integer.  (The
dict reads use `.get` with defaults in the source; the record fields are
always present here, as they are on every record built by
`aggregate_channels`.) -/
def calculate_channel_score (c : ChannelRec) : ℤ :=
  pyRound (activityScore c.publish_interval_days * (30/100) +
    perfScore (calculate_views_to_subs_pct c) * (35/100) +
    engagementScore c.median_views c.median_likes c.median_comments * (35/100))

-- ===========================================================================
-- filters.py
-- ===========================================================================

/-- Source `filter_videos_by_views`: keep the videos whose id has a stats entry
and whose view count lies in `[min_views, max_views]` (inclusive),
splicing the stats fields into the surviving dicts; a video with no
stats entry is silently dropped. -/
def filter_videos_by_views (videos : List VideoC) (stats : AList VStat)
    (min_views max_views : ℤ) : List FVideo :=
  videos.filterMap (fun video =>
    match stats.lookup video.video_id with
    | none => none
    | some st =>
      if min_views ≤ st.viewCount ∧ st.viewCount ≤ max_views then
        some { video_id := video.video_id
               title := video.title
               channel_id := video.channel_id
               channel_name := video.channel_name
               views := st.viewCount
               published_at := st.publishedAt
               likes := st.likeCount
               comment_count := st.commentCount
               duration_seconds := parse_iso8601_duration st.duration }
      else none)

/-- Source `filter_channels_by_subscribers`: keep the channel ids with a stats
entry whose subscriber count lies in the inclusive range. -/
def filter_channels_by_subscribers (channel_ids : List String)
    (stats : AList CStat) (min_subscribers max_subscribers : ℤ) : List String :=
  channel_ids.filter (fun cid =>
    match stats.lookup cid with
    | none => false
    | some st =>
      decide (min_subscribers ≤ st.subscriberCount ∧ st.subscriberCount ≤ max_subscribers))

/-- Source `filter_channels_by_activity`: keep the channels whose
`last_published` is known and within the trailing `max_days` window of
`now` (timestamps in days, so the cutoff is `now - max_days`). -/
def filter_channels_by_activity (channels : AList ChannelRec)
    (max_days_since_publish : ℤ) (now : ℤ) : AList ChannelRec :=
  let cutoff := now - max_days_since_publish
  channels.filter (fun p =>
    match p.2.last_published with
    | some t => decide (cutoff ≤ t)
    | none => false)

-- ===========================================================================
-- aggregation.py
-- ===========================================================================

/-- All keywords carried by the videos already stored on a channel
record (the list comprehension inside `aggregate_channels`). -/
def keywordsOf (videos : List ChanVideo) : List String :=
  (videos.map ChanVideo.keywords).flatten

/-- A fresh channel record materialised from a filtered video and the
channel's stats entry (`aggregate_channels`, first sighting). -/
def newChannelRec (video : FVideo) (st : CStat) : ChannelRec :=
  { channel_name := video.channel_name
    channel_id := video.channel_id
    channel_url := "youtube.com/channel/" ++ video.channel_id
    subscriber_count := st.subscriberCount
    total_videos := st.videoCount
    total_channel_views := st.viewCount
    country := st.country
    created_at := st.publishedAt
    thumbnail_url := st.thumbnailUrl
    uploads_playlist_id := st.uploadsPlaylistId
    description := st.description
    videos := [] }

/-- The video dict appended to a channel record; the keyword is tagged
only if no already-stored video of that channel carries it. -/
def chanVideoOf (video : FVideo) (keyword : String) (existingVideos : List ChanVideo) :
    ChanVideo :=
  { title := video.title
    url := "youtube.com/watch?v=" ++ video.video_id
    views := video.views
    published_at := video.published_at
    likes := video.likes
    comment_count := video.comment_count
    duration_seconds := video.duration_seconds
    keywords := if keyword ∈ keywordsOf existingVideos then [] else [keyword] }

/-- Loop body of the first phase of `aggregate_channels`: skip a video
whose channel has no stats entry; materialise the channel record on
first sighting; append the video to the record's list. -/
def aggStep (channel_stats : AList CStat) (keyword : String)
    (channels : AList ChannelRec) (video : FVideo) : AList ChannelRec :=
  match channel_stats.lookup video.channel_id with
  | none => channels
  | some st =>
    let channels1 :=
      if (channels.lookup video.channel_id).isSome then channels
      else channels ++ [(video.channel_id, newChannelRec video st)]
    updA channels1 video.channel_id (fun r =>
      { r with videos := r.videos ++ [chanVideoOf video keyword r.videos] })

/-- First phase of `aggregate_channels`: fold the filtered videos into a
channel dict. -/
def aggregateFold (videos : List FVideo) (channel_stats : AList CStat)
    (keyword : String) : AList ChannelRec :=
  videos.foldl (aggStep channel_stats keyword) []

/-- Second phase of `aggregate_channels`: recompute every derived metric
from the record's video list. -/
def setMetrics (r : ChannelRec) : ChannelRec :=
  let r1 := { r with median_views := calculate_median_views r }
  let r2 := { r1 with average_views := calculate_average_views r1 }
  let r3 := { r2 with publish_interval_days := calculate_publish_interval r2 }
  let r4 := { r3 with last_published := get_last_published r3 }
  let r5 := { r4 with median_likes := calculate_median_likes r4 }
  let r6 := { r5 with median_comments := calculate_median_comments r5 }
  let r7 := { r6 with avg_duration := calculate_avg_duration r6 }
  let r8 := { r7 with views_to_subs_pct := calculate_views_to_subs_pct r7 }
  { r8 with channel_score := calculate_channel_score r8 }

/-- Source `aggregate_channels`: fold videos by channel, then attach the
derived metrics to every record. -/
def aggregate_channels (videos : List FVideo) (channel_stats : AList CStat)
    (keyword : String) : AList ChannelRec :=
  (aggregateFold videos channel_stats keyword).map (fun p => (p.1, setMetrics p.2))

/-- Keyword union of `merge_channels`: append each incoming keyword that
the existing video does not already carry, preserving order. -/
def addKeywords (existing incoming : List String) : List String :=
  incoming.foldl (fun acc k => if k ∈ acc then acc else acc ++ [k]) existing

/-- Video merge of `merge_channels` for one incoming video: a video of a
new URL (relative to the URL set snapshotted at loop entry) is appended;
otherwise every stored video of the same URL has the incoming keywords
unioned in. -/
def mergeVideoStep (urlSet : List String) (st : List ChanVideo) (nv : ChanVideo) :
    List ChanVideo :=
  if nv.url ∈ urlSet then
    st.map (fun ev =>
      if ev.url = nv.url then { ev with keywords := addKeywords ev.keywords nv.keywords }
      else ev)
  else st ++ [nv]

/-- Channel fold step of `merge_channels`: an incoming channel already
present has its videos folded into the stored record against the URL
set snapshotted before the loop; an unseen channel is inserted at the
end. -/
def mergeStep (merged : AList ChannelRec) (p : String × ChannelRec) :
    AList ChannelRec :=
  match merged.lookup p.1 with
  | some mrec =>
    let urlSet := mrec.videos.map ChanVideo.url
    let final := p.2.videos.foldl (mergeVideoStep urlSet) mrec.videos
    updA merged p.1 (fun r => { r with videos := final })
  | none => merged ++ [p]

/-- Source `merge_channels` at the value level (the arguments share no
objects). -/
def merge_channels (existing_channels new_channels : AList ChannelRec) :
    AList ChannelRec :=
  new_channels.foldl mergeStep existing_channels

-- ===========================================================================
-- youtube_api.py (environment as explicit response streams)
-- ===========================================================================

/-- One response of the paginated search endpoint: either a page of
items together with the presence of a `nextPageToken`, or an
`HttpError`. -/
inductive PageResp where
  | ok (items : List VideoC) (hasNext : Bool)
  | err
deriving DecidableEq

/-- One response of a batched list endpoint (`videos().list` /
`channels().list`): a list of result items, or an `HttpError`. -/
inductive BatchResp (α : Type) where
  | ok (items : List α)
  | err
deriving DecidableEq

/-- True on a non-error batch response. -/
def BatchResp.isOk {α : Type} : BatchResp α → Bool
  | .ok _ => true
  | .err => false

/-- Source `BATCH_SIZE` from config.py. -/
def BATCH_SIZE : ℕ := 50

/-- Source `MAX_RESULTS_PER_KEYWORD` from config.py. -/
def MAX_RESULTS_PER_KEYWORD : ℕ := 1000

/-- The pagination loop of `search_videos`: while fewer than
`maxTotal` videos are collected, consume the next page; an exhausted
stream models a response with no further page token.  An `HttpError`
lands in the handler, which returns the empty list, discarding `acc`. -/
def searchLoop (pages : List PageResp) (maxTotal : ℕ) (acc : List VideoC) :
    List VideoC :=
  match pages with
  | [] => acc
  | .err :: _ => if acc.length < maxTotal then [] else acc
  | .ok items hasNext :: rest =>
    if acc.length < maxTotal then
      let acc1 := acc ++ items.take (maxTotal - acc.length)
      if hasNext then searchLoop rest maxTotal acc1 else acc1
    else acc

/-- Source `search_videos`: collect up to `maxTotal` candidates across pages. -/
def search_videos (pages : List PageResp) (maxTotal : ℕ) : List VideoC :=
  searchLoop pages maxTotal []

/-- One item of a `videos().list` response, already shaped by the
per-item extraction of `get_video_statistics` (integer fields parsed,
`publishedAt` as an optional timestamp as in the source's try/except). -/
structure VItem where
  id : String
  viewCount : ℤ
  likeCount : ℤ
  commentCount : ℤ
  publishedAt : Option ℤ
  duration : String
deriving DecidableEq, Inhabited

/-- The stats entry stored for one response item. -/
def vstatOf (it : VItem) : VStat :=
  { viewCount := it.viewCount
    publishedAt := it.publishedAt
    likeCount := it.likeCount
    commentCount := it.commentCount
    duration := it.duration }

/-- Insert an entry under dict-assignment semantics: overwrite in place
if the key exists, else append. -/
def dinsert (l : AList VStat) (k : String) (v : VStat) : AList VStat :=
  if (l.lookup k).isSome then updA l k (fun _ => v) else l ++ [(k, v)]

/-- Chunking worker, structurally recursive on a step counter that the
caller seeds with the list length (each slice consumes at least one
element when `n ≥ 1`, so the counter never runs out). -/
def chunksAux {α : Type} (n : ℕ) : ℕ → List α → List (List α)
  | 0, _ => []
  | _ + 1, [] => []
  | k + 1, x :: xs => (x :: xs).take n :: chunksAux n k ((x :: xs).drop n)

/-- Split a list into chunks of `n` (the `range(0, len, BATCH_SIZE)`
slicing). -/
def chunks {α : Type} (n : ℕ) (l : List α) : List (List α) :=
  if n = 0 then [] else chunksAux n l.length l

/-- The batch loop of `get_video_statistics`: one request per chunk of
ids; an `HttpError` lands in the handler, which returns the entries
accumulated so far (the loop is inside a single try, so later batches
are never issued). -/
def statsLoop (cs : List (List String)) (resps : List (BatchResp VItem))
    (stats : AList VStat) : AList VStat :=
  match cs, resps with
  | [], _ => stats
  | _, [] => stats
  | _ :: cs', resp :: resps' =>
    match resp with
    | .err => stats
    | .ok items =>
      statsLoop cs' resps' (items.foldl (fun st it => dinsert st it.id (vstatOf it)) stats)

/-- Source `get_video_statistics`: batch the ids, issue one request per batch,
merge the per-item stats entries. -/
def get_video_statistics (video_ids : List String) (resps : List (BatchResp VItem)) :
    AList VStat :=
  if video_ids = [] then [] else statsLoop (chunks BATCH_SIZE video_ids) resps []

-- ===========================================================================
-- pipeline.py
-- ===========================================================================

/-- The three remote operations `search_creators` uses, abstracted as
pure functions of their arguments (the Gateway never raises; a failed
remote call already surfaces as an empty or partial result).  Progress
callbacks only emit log strings and are elided. -/
structure Service where
  searchVideos : String → List VideoC
  getVideoStatistics : List String → AList VStat
  getChannelStatistics : List String → AList CStat

/-- Source `search_creators`: the full pipeline.  `SearchError` is modelled as
the `Except.error` branch carrying the message (the source's `{:,}`
thousands grouping and quoting of the keyword are elided from the
message text).  `list(set(...))` is modelled as order-preserving
deduplication; no later step depends on the order of that list.
`if activity_days:` is Python truthiness: `None` and `0` both skip the
activity stage. -/
def search_creators (svc : Service) (keyword : String)
    (view_range subscriber_range : ℤ × ℤ)
    (activity_days : Option ℤ) (now : ℤ) : Except String (AList ChannelRec) :=
  let min_views := view_range.1
  let max_views := view_range.2
  let min_subs := subscriber_range.1
  let max_subs := subscriber_range.2
  let videos := svc.searchVideos keyword
  if videos = [] then .error ("No videos found for " ++ keyword)
  else
    let video_ids := videos.map VideoC.video_id
    let video_stats := svc.getVideoStatistics video_ids
    let filtered_videos := filter_videos_by_views videos video_stats min_views max_views
    if filtered_videos = [] then
      .error ("No videos found with " ++ toString min_views ++ "-" ++
        toString max_views ++ " views")
    else
      let channel_ids := (filtered_videos.map FVideo.channel_id).eraseDups
      let channel_stats := svc.getChannelStatistics channel_ids
      let valid_channel_ids :=
        filter_channels_by_subscribers channel_ids channel_stats min_subs max_subs
      let filtered_videos2 := filtered_videos.filter (fun v => v.channel_id ∈ valid_channel_ids)
      if filtered_videos2 = [] then .error "No channels match subscriber criteria"
      else
        let keyword_channels := aggregate_channels filtered_videos2 channel_stats keyword
        let all_channels := merge_channels [] keyword_channels
        .ok (match activity_days with
             | some d => if d ≠ 0 then filter_channels_by_activity all_channels d now
                         else all_channels
             | none => all_channels)

-- ===========================================================================
-- merge_channels with Python object identity (for the frame effect)
-- ===========================================================================

/-- A heap of channel-record objects (their `videos` lists hold video
pointers) and of video-dict objects.  Dict values in `merge_channels`
arguments are pointers into `chans`; `existing.copy()` copies only the
outer dict, so both dicts reference the same record objects. -/
structure Heap where
  chans : List (ChannelRecG ℕ)
  vids : List ChanVideo
deriving DecidableEq

/-- A dict variable: channel_id → pointer to a channel-record object. -/
abbrev DictH := List (String × ℕ)

def readChan (h : Heap) (p : ℕ) : ChannelRecG ℕ := h.chans.getD p default

def writeChan (h : Heap) (p : ℕ) (r : ChannelRecG ℕ) : Heap :=
  { h with chans := h.chans.set p r }

def readVid (h : Heap) (p : ℕ) : ChanVideo := h.vids.getD p default

def writeVid (h : Heap) (p : ℕ) (v : ChanVideo) : Heap :=
  { h with vids := h.vids.set p v }

/-- The keyword-union inner loops: for every stored video of the merged
record whose URL equals the incoming one, append each incoming keyword
that it does not already carry (all reads and writes go through the
heap, so mutations are visible to later iterations). -/
def kwMergeH (mPtr nvp : ℕ) (nurl : String) (h : Heap) : Heap :=
  (readChan h mPtr).videos.foldl (fun h evp =>
    if (readVid h evp).url = nurl then
      (readVid h nvp).keywords.foldl (fun h k =>
        let ev := readVid h evp
        if k ∈ ev.keywords then h
        else writeVid h evp { ev with keywords := ev.keywords ++ [k] }) h
    else h) h

/-- One iteration of the video loop of `merge_channels`: an incoming
video pointer whose URL missed the snapshotted URL set is appended to
the merged record's (live) video list; otherwise its keywords are
unioned into every URL-matching stored video. -/
def mergeVideoStepH (mPtr : ℕ) (urlSet : List String) (h : Heap) (nvp : ℕ) : Heap :=
  let nurl := (readVid h nvp).url
  if nurl ∈ urlSet then kwMergeH mPtr nvp nurl h
  else
    let mr := readChan h mPtr
    writeChan h mPtr { mr with videos := mr.videos ++ [nvp] }

/-- Source `merge_channels` over the heap: `merged` starts as a shallow copy of
`existing_channels` (same record pointers).  For a shared channel_id the
URL set and the incoming pointer list are read once at loop entry — the
iterated list object is never appended to while aliased (an append
requires a URL outside its own URL set), so this matches Python's live
iteration.  A new channel_id appends the incoming pointer. -/
def merge_channelsH (h : Heap) (existing_channels new_channels : DictH) :
    DictH × Heap :=
  new_channels.foldl (fun s p =>
    let merged := s.1
    let h := s.2
    match merged.lookup p.1 with
    | some mPtr =>
      let urlSet := (readChan h mPtr).videos.map (fun vp => (readVid h vp).url)
      let newVids := (readChan h p.2).videos
      (merged, newVids.foldl (mergeVideoStepH mPtr urlSet) h)
    | none => (merged ++ [p], h)) (existing_channels, h)

-- ===========================================================================
-- Theorems
-- ===========================================================================

/-- A successful search page that advertises a further page. -/
def isOkNext : PageResp → Bool
  | .ok _ true => true
  | _ => false

/-- Number of items carried by a page response. -/
def pageLen : PageResp → ℕ
  | .ok items _ => items.length
  | .err => 0

lemma searchLoop_err (pre : List PageResp) (rest : List PageResp) (maxTotal : ℕ)
    (acc : List VideoC) (hok : pre.all isOkNext = true)
    (hlen : acc.length + (pre.map pageLen).sum < maxTotal) :
    searchLoop (pre ++ PageResp.err :: rest) maxTotal acc = [] := by
  induction pre generalizing acc with
  | nil =>
    simp only [List.map_nil, List.sum_nil, Nat.add_zero] at hlen
    simp only [List.nil_append, searchLoop, if_pos hlen]
  | cons p ps ih =>
    cases p with
    | err => simp [List.all_cons, isOkNext] at hok
    | ok items hasNext =>
      have hnext : hasNext = true := by
        cases hasNext
        · simp [List.all_cons, isOkNext] at hok
        · rfl
      subst hnext
      simp only [List.map_cons, List.sum_cons, pageLen] at hlen
      have hlt : acc.length < maxTotal := by omega
      simp only [List.cons_append, searchLoop, if_pos hlt, if_pos rfl]
      apply ih
      · simpa [List.all_cons, isOkNext] using hok
      · have : (items.take (maxTotal - acc.length)).length ≤ items.length := by
          simp [List.length_take]
        simp only [List.length_append]
        omega

/-- C1 counterexample: one page of one video is collected, then the
second page raises; `search_videos` returns the empty list, not the one
collected video. -/
theorem search_videos_error_discards_cex :
    search_videos [PageResp.ok [⟨"v1", "t1", "c1", "n1"⟩] true, PageResp.err] 5 = [] ∧
    ([] : List VideoC) ≠ [⟨"v1", "t1", "c1", "n1"⟩] :=
  ⟨rfl, by simp⟩

/-- C1 (amended): if a remote error occurs during pagination of
`search_videos` — after any number of successful pages that did not yet
reach the collection target — the whole collection is discarded and the
empty list is returned (no exception propagates). -/
theorem search_videos_error_returns_empty (pre rest : List PageResp) (maxTotal : ℕ)
    (hok : pre.all isOkNext = true)
    (hlen : (pre.map pageLen).sum < maxTotal) :
    search_videos (pre ++ PageResp.err :: rest) maxTotal = [] := by
  unfold search_videos
  exact searchLoop_err pre rest maxTotal [] hok (by simpa using hlen)

/-- Witness for `search_videos_error_returns_empty` at a concrete page
stream. -/
theorem search_videos_error_returns_empty_wit :
    ([PageResp.ok [⟨"v1", "t1", "c1", "n1"⟩] true].all isOkNext = true) ∧
    (([PageResp.ok [⟨"v1", "t1", "c1", "n1"⟩] true].map pageLen).sum < 5) ∧
    search_videos ([PageResp.ok [⟨"v1", "t1", "c1", "n1"⟩] true] ++ PageResp.err :: []) 5 = [] :=
  ⟨by decide, by decide,
    search_videos_error_returns_empty [PageResp.ok [⟨"v1", "t1", "c1", "n1"⟩] true] [] 5
      (by decide) (by decide)⟩

/-- C2 counterexample: a 10-day average gap is bucketed as
"Every 2 weeks" (the biweekly bucket), not as the weekly bucket. -/
theorem format_publish_interval_ten_cex :
    format_publish_interval (some 10) = "Every 2 weeks" ∧
    ("Every 2 weeks" : String) ≠ "Weekly" :=
  ⟨by norm_num [format_publish_interval], by simp⟩

/-- C2 (amended): `format_publish_interval` maps `None` to the unknown
label "N/A", a half-day gap to the "Multiple per day" bucket, and a
10-day gap to the biweekly bucket "Every 2 weeks" (not the weekly one,
which covers gaps below 8 days). -/
theorem format_publish_interval_values :
    format_publish_interval none = "N/A" ∧
    format_publish_interval (some (1/2)) = "Multiple per day" ∧
    format_publish_interval (some 10) = "Every 2 weeks" ∧
    format_publish_interval (some 7) = "Weekly" :=
  ⟨rfl, by norm_num [format_publish_interval], by norm_num [format_publish_interval],
    by norm_num [format_publish_interval]⟩

lemma statsLoop_err (pre rest : List (BatchResp VItem)) (cs : List (List String))
    (stats : AList VStat) (hok : pre.all BatchResp.isOk = true) :
    statsLoop cs (pre ++ BatchResp.err :: rest) stats = statsLoop cs pre stats := by
  induction pre generalizing cs stats with
  | nil =>
    cases cs with
    | nil => rfl
    | cons c cs' => rfl
  | cons r pre' ih =>
    cases r with
    | err => simp [List.all_cons, BatchResp.isOk] at hok
    | ok items =>
      cases cs with
      | nil => rfl
      | cons c cs' =>
        simp only [List.cons_append, statsLoop]
        exact ih _ _ (by simpa [List.all_cons, BatchResp.isOk] using hok)

/-- C3 counterexample: 51 ids make two batches; when the first batch's
request fails, the id in the second batch gets no stats entry either
(contrast: with a successful first batch it does). -/
theorem get_video_statistics_batch_cex :
    (get_video_statistics (List.replicate 50 "a" ++ ["b"])
        [BatchResp.err, BatchResp.ok [⟨"b", 7, 0, 0, none, ""⟩]]).lookup "b" = none ∧
    (get_video_statistics (List.replicate 50 "a" ++ ["b"])
        [BatchResp.ok [], BatchResp.ok [⟨"b", 7, 0, 0, none, ""⟩]]).lookup "b" =
      some ⟨7, none, 0, 0, ""⟩ :=
  ⟨rfl, rfl⟩

/-- C3 (amended): a failing batch request aborts the whole loop of
`get_video_statistics`: the call returns exactly the entries accumulated
from the batches answered before the failure, so the failing batch's ids
AND every later batch's ids are absent, while earlier batches keep their
entries. -/
theorem get_video_statistics_error_truncates (video_ids : List String)
    (pre rest : List (BatchResp VItem)) (hok : pre.all BatchResp.isOk = true) :
    get_video_statistics video_ids (pre ++ BatchResp.err :: rest) =
      get_video_statistics video_ids pre := by
  unfold get_video_statistics
  split
  · rfl
  · exact statsLoop_err pre rest _ [] hok

/-- Witness for `get_video_statistics_error_truncates` on a concrete
two-batch call failing at the second batch. -/
theorem get_video_statistics_error_truncates_wit :
    ([BatchResp.ok [(⟨"a", 3, 0, 0, none, ""⟩ : VItem)]].all BatchResp.isOk = true) ∧
    get_video_statistics (List.replicate 50 "a" ++ ["b"])
        ([BatchResp.ok [(⟨"a", 3, 0, 0, none, ""⟩ : VItem)]] ++ BatchResp.err :: []) =
      get_video_statistics (List.replicate 50 "a" ++ ["b"])
        [BatchResp.ok [(⟨"a", 3, 0, 0, none, ""⟩ : VItem)]] :=
  ⟨by decide,
    get_video_statistics_error_truncates (List.replicate 50 "a" ++ ["b"])
      [BatchResp.ok [(⟨"a", 3, 0, 0, none, ""⟩ : VItem)]] [] (by decide)⟩

/-- C6: every video returned by `filter_videos_by_views` has a stats
entry in the input map, carries that entry's view count, and that count
lies inside the inclusive range; a video with no stats entry never
appears (it is dropped, not defaulted to zero views). -/
theorem filter_videos_by_views_sound (videos : List VideoC) (stats : AList VStat)
    (min_views max_views : ℤ) (v : FVideo)
    (hv : v ∈ filter_videos_by_views videos stats min_views max_views) :
    ∃ st, stats.lookup v.video_id = some st ∧ v.views = st.viewCount ∧
      min_views ≤ v.views ∧ v.views ≤ max_views := by
  rw [filter_videos_by_views, List.mem_filterMap] at hv
  obtain ⟨a, _, hfa⟩ := hv
  cases hst : stats.lookup a.video_id with
  | none => rw [hst] at hfa; exact absurd hfa (by simp)
  | some st =>
    rw [hst] at hfa
    dsimp only at hfa
    by_cases hc : min_views ≤ st.viewCount ∧ st.viewCount ≤ max_views
    · rw [if_pos hc] at hfa
      injection hfa with hfa
      subst hfa
      exact ⟨st, hst, rfl, hc.1, hc.2⟩
    · rw [if_neg hc] at hfa
      exact absurd hfa (by simp)

/-- Witness for `filter_videos_by_views_sound` on a one-video input. -/
theorem filter_videos_by_views_sound_wit :
    ((⟨"v1", "t", "c", "n", 500, none, 10, 2, 0⟩ : FVideo) ∈
      filter_videos_by_views [⟨"v1", "t", "c", "n"⟩] [("v1", ⟨500, none, 10, 2, ""⟩)] 100 1000) ∧
    (∃ st, ([(("v1" : String), (⟨500, none, 10, 2, ""⟩ : VStat))]).lookup
        (⟨"v1", "t", "c", "n", 500, none, 10, 2, 0⟩ : FVideo).video_id = some st ∧
      (⟨"v1", "t", "c", "n", 500, none, 10, 2, 0⟩ : FVideo).views = st.viewCount ∧
      100 ≤ (⟨"v1", "t", "c", "n", 500, none, 10, 2, 0⟩ : FVideo).views ∧
      (⟨"v1", "t", "c", "n", 500, none, 10, 2, 0⟩ : FVideo).views ≤ 1000) :=
  ⟨by decide,
    filter_videos_by_views_sound [⟨"v1", "t", "c", "n"⟩] [("v1", ⟨500, none, 10, 2, ""⟩)]
      100 1000 ⟨"v1", "t", "c", "n", 500, none, 10, 2, 0⟩ (by decide)⟩

lemma lookup_isSome_iff_mem_keys {α : Type} (l : AList α) (k : String) :
    (l.lookup k).isSome = true ↔ k ∈ keysA l := by
  induction l with
  | nil => simp [keysA]
  | cons p t ih =>
    by_cases h : k = p.1
    · simp [List.lookup, keysA, h]
    · simp only [List.lookup, keysA, List.map_cons, List.mem_cons]
      rw [beq_false_of_ne h]
      simpa [keysA, h, Ne.symm h] using ih

lemma keysA_updA {α : Type} (l : AList α) (k : String) (f : α → α) :
    keysA (updA l k f) = keysA l := by
  simp only [keysA, updA, List.map_map]
  apply List.map_congr_left
  intro p _
  by_cases h : p.1 = k <;> simp [h]

lemma keysA_mapVals {α β : Type} (l : AList α) (f : α → β) :
    keysA (l.map (fun p => (p.1, f p.2))) = keysA l := by
  simp only [keysA, List.map_map]
  rfl

lemma aggStep_keys_sound (channel_stats : AList CStat) (keyword : String)
    (acc : AList ChannelRec) (video : FVideo)
    (hacc : ∀ cid ∈ keysA acc, (channel_stats.lookup cid).isSome = true) :
    ∀ cid ∈ keysA (aggStep channel_stats keyword acc video),
      (channel_stats.lookup cid).isSome = true := by
  intro cid hcid
  unfold aggStep at hcid
  cases hst : channel_stats.lookup video.channel_id with
  | none => rw [hst] at hcid; exact hacc cid hcid
  | some st =>
    rw [hst] at hcid
    rw [keysA_updA] at hcid
    by_cases hmem : (acc.lookup video.channel_id).isSome = true
    · rw [if_pos (by simpa using hmem)] at hcid
      exact hacc cid hcid
    · rw [if_neg (by simpa using hmem)] at hcid
      simp only [keysA, List.map_append, List.mem_append] at hcid
      rcases hcid with hcid | hcid
      · exact hacc cid hcid
      · simp only [List.map_cons, List.map_nil, List.mem_singleton] at hcid
        subst hcid
        simp [hst]

lemma aggregateFold_keys_sound (channel_stats : AList CStat) (keyword : String) :
    ∀ (videos : List FVideo) (acc : AList ChannelRec),
      (∀ cid ∈ keysA acc, (channel_stats.lookup cid).isSome = true) →
      ∀ cid ∈ keysA (videos.foldl (aggStep channel_stats keyword) acc),
        (channel_stats.lookup cid).isSome = true := by
  intro videos
  induction videos with
  | nil => intro acc hacc; simpa using hacc
  | cons v vs ih =>
    intro acc hacc
    simp only [List.foldl_cons]
    exact ih _ (aggStep_keys_sound channel_stats keyword acc v hacc)

/-- C7: `aggregate_channels` never emits a record for a channel_id that
has no entry in the supplied channel-stats map. -/
theorem aggregate_channels_keys_sound (videos : List FVideo)
    (channel_stats : AList CStat) (keyword : String) (cid : String)
    (h : ((aggregate_channels videos channel_stats keyword).lookup cid).isSome = true) :
    (channel_stats.lookup cid).isSome = true := by
  rw [lookup_isSome_iff_mem_keys, aggregate_channels, keysA_mapVals] at h
  exact aggregateFold_keys_sound channel_stats keyword videos []
    (by simp [keysA]) cid (by simpa [aggregateFold] using h)

/-- Witness for `aggregate_channels_keys_sound` on a one-video,
one-channel input. -/
theorem aggregate_channels_keys_sound_wit :
    (((aggregate_channels [⟨"v1", "t", "c1", "n", 500, none, 0, 0, 0⟩]
        [("c1", ⟨1000, 10, 99, "", "", none, "", "", ""⟩)] "kw").lookup "c1").isSome = true) ∧
    (([(("c1" : String), (⟨1000, 10, 99, "", "", none, "", "", ""⟩ : CStat))]).lookup
        "c1").isSome = true :=
  ⟨by decide,
    aggregate_channels_keys_sound [⟨"v1", "t", "c1", "n", 500, none, 0, 0, 0⟩]
      [("c1", ⟨1000, 10, 99, "", "", none, "", "", ""⟩)] "kw" "c1" (by decide)⟩

lemma activityScore_bounds (d : Option ℚ) :
    30 ≤ activityScore d ∧ activityScore d ≤ 100 := by
  cases d with
  | none => norm_num [activityScore]
  | some x =>
    simp only [activityScore]
    split_ifs <;> norm_num

lemma perfScore_bounds (r : ℚ) : 20 ≤ perfScore r ∧ perfScore r ≤ 100 := by
  unfold perfScore
  split_ifs <;> norm_num

lemma ratioPct_nonneg (num den : ℤ) (h : 0 ≤ num) : 0 ≤ ratioPct num den := by
  unfold ratioPct
  split_ifs with hd
  · have h1 : (0:ℚ) ≤ (num : ℚ) := by exact_mod_cast h
    have h2 : (0:ℚ) ≤ (den : ℚ) := by exact_mod_cast hd.le
    have := div_nonneg h1 h2
    linarith
  · exact le_refl 0

lemma capped_bounds (x : ℚ) (hx : 0 ≤ x) :
    0 ≤ min 100 x ∧ min 100 x ≤ 100 :=
  ⟨le_min (by norm_num) hx, min_le_left _ _⟩

lemma engagementScore_bounds (mv ml mc : ℤ) (hml : 0 ≤ ml) (hmc : 0 ≤ mc) :
    0 ≤ engagementScore mv ml mc ∧ engagementScore mv ml mc ≤ 100 := by
  have hl := capped_bounds ((ratioPct ml mv / 4) * 100)
    (by have := ratioPct_nonneg ml mv hml; linarith)
  have hc := capped_bounds ((ratioPct mc mv / (1/2)) * 100)
    (by have := ratioPct_nonneg mc mv hmc; linarith)
  simp only [engagementScore]
  constructor
  · linarith [hl.1, hc.1]
  · linarith [hl.2, hc.2]

lemma pyRound_bounds (q : ℚ) (h0 : 0 ≤ q) (h100 : q ≤ 100) :
    0 ≤ pyRound q ∧ pyRound q ≤ 100 := by
  simp only [pyRound]
  have hf0 : (0:ℤ) ≤ ⌊q⌋ := Int.floor_nonneg.mpr h0
  have hfq : (⌊q⌋ : ℚ) ≤ q := Int.floor_le q
  have hf100 : ⌊q⌋ ≤ 100 := by
    have h := Int.floor_le_floor h100
    simpa using h
  split_ifs with hc1 hc2 hc3
  · exact ⟨hf0, hf100⟩
  · refine ⟨by omega, ?_⟩
    have hlt : ((⌊q⌋ : ℚ)) < 100 - 1/2 := by linarith
    have : ((⌊q⌋ : ℚ)) < 100 := by linarith
    have : ⌊q⌋ < 100 := by exact_mod_cast this
    omega
  · exact ⟨hf0, hf100⟩
  · refine ⟨by omega, ?_⟩
    have heq : q - ⌊q⌋ = 1/2 := le_antisymm (not_lt.mp hc2) (not_lt.mp hc1)
    have : ((⌊q⌋ : ℚ)) < 100 := by linarith
    have : ⌊q⌋ < 100 := by exact_mod_cast this
    omega

/-- C8: for non-negative metric inputs, the channel score is an integer
between 0 and 100 inclusive. -/
theorem channel_score_range (c : ChannelRec)
    (h1 : 0 ≤ c.median_views) (h2 : 0 ≤ c.median_likes) (h3 : 0 ≤ c.median_comments)
    (h4 : 0 ≤ c.subscriber_count)
    (h5 : ∀ d, c.publish_interval_days = some d → 0 ≤ d) :
    0 ≤ calculate_channel_score c ∧ calculate_channel_score c ≤ 100 := by
  unfold calculate_channel_score
  obtain ⟨ha1, ha2⟩ := activityScore_bounds c.publish_interval_days
  obtain ⟨hp1, hp2⟩ := perfScore_bounds (calculate_views_to_subs_pct c)
  obtain ⟨he1, he2⟩ :=
    engagementScore_bounds c.median_views c.median_likes c.median_comments h2 h3
  exact pyRound_bounds _ (by linarith) (by linarith)

/-- A concrete channel record for the score-range witness. -/
def scoreSample : ChannelRec :=
  { channel_name := "s", channel_id := "c", channel_url := "u",
    subscriber_count := 100, total_videos := 10, total_channel_views := 0,
    country := "", created_at := none, thumbnail_url := "",
    uploads_playlist_id := "", description := "", videos := [],
    median_views := 50, publish_interval_days := some 3,
    median_likes := 2, median_comments := 1 }

/-- Witness for `channel_score_range` at a concrete record. -/
theorem channel_score_range_wit :
    (0 ≤ scoreSample.median_views ∧ 0 ≤ scoreSample.median_likes ∧
      0 ≤ scoreSample.median_comments ∧ 0 ≤ scoreSample.subscriber_count ∧
      (∀ d, scoreSample.publish_interval_days = some d → 0 ≤ d)) ∧
    (0 ≤ calculate_channel_score scoreSample ∧ calculate_channel_score scoreSample ≤ 100) :=
  ⟨⟨by norm_num [scoreSample], by norm_num [scoreSample], by norm_num [scoreSample],
      by norm_num [scoreSample],
      by intro d hd; simp only [scoreSample, Option.some.injEq] at hd; subst hd; norm_num⟩,
    channel_score_range scoreSample (by norm_num [scoreSample]) (by norm_num [scoreSample])
      (by norm_num [scoreSample]) (by norm_num [scoreSample])
      (by intro d hd; simp only [scoreSample, Option.some.injEq] at hd; subst hd; norm_num)⟩

/-- Stage value: the videos surviving the view filter (pipeline steps
1-3). -/
def pipeFiltered1 (svc : Service) (keyword : String) (view_range : ℤ × ℤ) :
    List FVideo :=
  filter_videos_by_views (svc.searchVideos keyword)
    (svc.getVideoStatistics ((svc.searchVideos keyword).map VideoC.video_id))
    view_range.1 view_range.2

/-- Stage value: the channel-stats map fetched for the view-filtered
videos (pipeline step 4). -/
def pipeChannelStats (svc : Service) (keyword : String) (view_range : ℤ × ℤ) :
    AList CStat :=
  svc.getChannelStatistics ((pipeFiltered1 svc keyword view_range).map FVideo.channel_id).eraseDups

/-- Stage value: the videos surviving the subscriber filter (pipeline
step 5). -/
def pipeFiltered2 (svc : Service) (keyword : String)
    (view_range subscriber_range : ℤ × ℤ) : List FVideo :=
  (pipeFiltered1 svc keyword view_range).filter (fun v =>
    v.channel_id ∈ filter_channels_by_subscribers
      (((pipeFiltered1 svc keyword view_range).map FVideo.channel_id).eraseDups)
      (pipeChannelStats svc keyword view_range) subscriber_range.1 subscriber_range.2)

/-- Stage value: the aggregated (and, when configured, activity-filtered)
channel map the pipeline returns on success (steps 6-7). -/
def pipeResult (svc : Service) (keyword : String)
    (view_range subscriber_range : ℤ × ℤ) (activity_days : Option ℤ) (now : ℤ) :
    AList ChannelRec :=
  let all_channels := merge_channels []
    (aggregate_channels (pipeFiltered2 svc keyword view_range subscriber_range)
      (pipeChannelStats svc keyword view_range) keyword)
  match activity_days with
  | some d => if d ≠ 0 then filter_channels_by_activity all_channels d now else all_channels
  | none => all_channels

/-- C4: `search_creators` raises a `SearchError` exactly when one of the
three required stages yields zero usable items (no search results, no
videos in the view range, no videos left on a subscriber-passing
channel); otherwise it returns the aggregated channel map — never a
partial result alongside an error. -/
theorem search_creators_error_iff (svc : Service) (keyword : String)
    (view_range subscriber_range : ℤ × ℤ) (activity_days : Option ℤ) (now : ℤ) :
    ((∃ msg, search_creators svc keyword view_range subscriber_range activity_days now =
        .error msg) ↔
      (svc.searchVideos keyword = [] ∨
        pipeFiltered1 svc keyword view_range = [] ∨
        pipeFiltered2 svc keyword view_range subscriber_range = [])) ∧
    ((svc.searchVideos keyword ≠ [] ∧
        pipeFiltered1 svc keyword view_range ≠ [] ∧
        pipeFiltered2 svc keyword view_range subscriber_range ≠ []) →
      search_creators svc keyword view_range subscriber_range activity_days now =
        .ok (pipeResult svc keyword view_range subscriber_range activity_days now)) := by
  simp only [search_creators, pipeFiltered2, pipeFiltered1, pipeChannelStats, pipeResult]
  split_ifs with h1 h2 h3
  · exact ⟨⟨fun _ => Or.inl h1, fun _ => ⟨_, rfl⟩⟩, fun hn => absurd h1 hn.1⟩
  · exact ⟨⟨fun _ => Or.inr (Or.inl h2), fun _ => ⟨_, rfl⟩⟩, fun hn => absurd h2 hn.2.1⟩
  · exact ⟨⟨fun _ => Or.inr (Or.inr h3), fun _ => ⟨_, rfl⟩⟩, fun hn => absurd h3 hn.2.2⟩
  · refine ⟨⟨fun hmsg => ?_, fun hor => ?_⟩, fun _ => rfl⟩
    · obtain ⟨msg, hmsg⟩ := hmsg
      exact absurd hmsg (by simp)
    · rcases hor with h | h | h <;> [exact absurd h h1; exact absurd h h2; exact absurd h h3]

/-- A concrete service for the pipeline witnesses: one video on one
channel, with stats that pass a (100, 1000) view range and a (0, 1000)
subscriber range. -/
def svcW : Service :=
  { searchVideos := fun _ => [⟨"v1", "t", "c1", "n"⟩]
    getVideoStatistics := fun _ => [("v1", ⟨500, none, 0, 0, ""⟩)]
    getChannelStatistics := fun _ => [("c1", ⟨50, 5, 0, "", "", none, "", "", ""⟩)] }

/-- Witness for `search_creators_error_iff`: on the concrete passing
service no stage is empty and the pipeline returns the aggregated map. -/
theorem search_creators_error_iff_wit :
    (svcW.searchVideos "kw" ≠ [] ∧
      pipeFiltered1 svcW "kw" (100, 1000) ≠ [] ∧
      pipeFiltered2 svcW "kw" (100, 1000) (0, 1000) ≠ []) ∧
    search_creators svcW "kw" (100, 1000) (0, 1000) none 0 =
      .ok (pipeResult svcW "kw" (100, 1000) (0, 1000) none 0) :=
  ⟨⟨by decide, by decide, by decide⟩,
    (search_creators_error_iff svcW "kw" (100, 1000) (0, 1000) none 0).2
      ⟨by decide, by decide, by decide⟩⟩

/-- C10: passing `activity_days = 0` skips the activity stage entirely,
exactly like passing `None` (Python truthiness of the gate). -/
theorem search_creators_activity_zero (svc : Service) (keyword : String)
    (view_range subscriber_range : ℤ × ℤ) (now : ℤ) :
    search_creators svc keyword view_range subscriber_range (some 0) now =
      search_creators svc keyword view_range subscriber_range none now := by
  simp [search_creators]

lemma addKeywords_of_subset (ek : List String) :
    ∀ nk, (∀ k ∈ nk, k ∈ ek) → addKeywords ek nk = ek := by
  intro nk
  induction nk with
  | nil => intro _; rfl
  | cons k nk' ih =>
    intro h
    show List.foldl _ (if k ∈ ek then ek else ek ++ [k]) nk' = ek
    rw [if_pos (h k (List.mem_cons_self k nk'))]
    exact ih (fun x hx => h x (List.mem_cons_of_mem k hx))

lemma mergeVideoStep_self (vs : List ChanVideo)
    (hnd : (vs.map ChanVideo.url).Nodup) (nv : ChanVideo) (hnv : nv ∈ vs) :
    mergeVideoStep (vs.map ChanVideo.url) vs nv = vs := by
  unfold mergeVideoStep
  rw [if_pos (List.mem_map_of_mem ChanVideo.url hnv)]
  have hpt : ∀ ev ∈ vs,
      (if ev.url = nv.url then { ev with keywords := addKeywords ev.keywords nv.keywords }
       else ev) = ev := by
    intro ev hev
    by_cases h : ev.url = nv.url
    · have heq : ev = nv := List.inj_on_of_nodup_map hnd hev hnv h
      subst heq
      rw [if_pos h, addKeywords_of_subset ev.keywords ev.keywords (fun k hk => hk)]
    · rw [if_neg h]
  calc vs.map _ = vs.map id := List.map_congr_left hpt
    _ = vs := List.map_id vs

lemma foldl_mergeVideoStep_self (vs : List ChanVideo)
    (hnd : (vs.map ChanVideo.url).Nodup) :
    ∀ ns : List ChanVideo, (∀ v ∈ ns, v ∈ vs) →
      List.foldl (mergeVideoStep (vs.map ChanVideo.url)) vs ns = vs := by
  intro ns
  induction ns with
  | nil => intro _; rfl
  | cons n ns' ih =>
    intro h
    simp only [List.foldl_cons,
      mergeVideoStep_self vs hnd n (h n (List.mem_cons_self n ns'))]
    exact ih (fun v hv => h v (List.mem_cons_of_mem n hv))

lemma lookup_of_mem_nodup {α : Type} :
    ∀ (l : AList α), (keysA l).Nodup → ∀ k v, (k, v) ∈ l → l.lookup k = some v := by
  intro l
  induction l with
  | nil => intro _ k v hmem; cases hmem
  | cons p t ih =>
    intro hnd k v hmem
    have hnd' : p.1 ∉ keysA t ∧ (keysA t).Nodup := by
      simpa [keysA] using hnd
    rcases List.mem_cons.mp hmem with heq | hmem'
    · rw [← heq]
      simp [List.lookup]
    · have hk : k ≠ p.1 := by
        intro hkp
        subst hkp
        exact hnd'.1 (List.mem_map.mpr ⟨(p.1, v), hmem', rfl⟩)
      simp only [List.lookup, beq_false_of_ne hk]
      exact ih hnd'.2 k v hmem'

lemma updA_eq_self {α : Type} (l : AList α) (hnd : (keysA l).Nodup)
    (k : String) (v : α) (f : α → α) (hmem : (k, v) ∈ l) (hf : f v = v) :
    updA l k f = l := by
  unfold updA
  have hpt : ∀ p ∈ l, (if p.1 = k then (p.1, f p.2) else p) = p := by
    intro p hp
    by_cases h : p.1 = k
    · have h1 : l.lookup p.1 = some p.2 := lookup_of_mem_nodup l hnd p.1 p.2 hp
      have h2 : l.lookup k = some v := lookup_of_mem_nodup l hnd k v hmem
      rw [h] at h1
      rw [h1] at h2
      have hv : p.2 = v := Option.some.inj h2
      rw [if_pos h, hv, hf, ← hv]
    · rw [if_neg h]
  calc l.map _ = l.map id := List.map_congr_left hpt
    _ = l := List.map_id l

lemma mergeStep_self (M : AList ChannelRec) (hkeys : (keysA M).Nodup)
    (p : String × ChannelRec) (hp : p ∈ M)
    (hurl : (p.2.videos.map ChanVideo.url).Nodup) :
    mergeStep M p = M := by
  unfold mergeStep
  rw [lookup_of_mem_nodup M hkeys p.1 p.2 hp]
  dsimp only
  simp only [foldl_mergeVideoStep_self p.2.videos hurl p.2.videos (fun v hv => hv)]
  exact updA_eq_self M hkeys p.1 p.2 _ hp rfl

lemma foldl_mergeStep_const (M : AList ChannelRec) (hkeys : (keysA M).Nodup)
    (hurls : ∀ p ∈ M, (p.2.videos.map ChanVideo.url).Nodup) :
    ∀ ns : List (String × ChannelRec), (∀ p ∈ ns, p ∈ M) →
      List.foldl mergeStep M ns = M := by
  intro ns
  induction ns with
  | nil => intro _; rfl
  | cons p ns' ih =>
    intro h
    have hp := h p (List.mem_cons_self p ns')
    simp only [List.foldl_cons, mergeStep_self M hkeys p hp (hurls p hp)]
    exact ih (fun q hq => h q (List.mem_cons_of_mem p hq))

/-- C5 (amended): `merge_channels` is idempotent on well-formed maps —
for any channel map whose per-channel video URLs are pairwise distinct
(the invariant every accumulated result set is meant to satisfy),
merging it with itself changes nothing: no video is appended and no
keyword is added. -/
theorem merge_channels_idem (M : AList ChannelRec)
    (hkeys : (keysA M).Nodup)
    (hurls : ∀ p ∈ M, (p.2.videos.map ChanVideo.url).Nodup) :
    merge_channels M M = M := by
  unfold merge_channels
  exact foldl_mergeStep_const M hkeys hurls M (fun p hp => hp)

/-- A channel record with two stored videos sharing one URL but carrying
different keywords. -/
def dupRec : ChannelRec :=
  { channel_name := "n", channel_id := "A", channel_url := "cu",
    subscriber_count := 1, total_videos := 2, total_channel_views := 0,
    country := "", created_at := none, thumbnail_url := "",
    uploads_playlist_id := "", description := "",
    videos := [⟨"t1", "u", 0, none, 0, 0, 0, ["a"]⟩,
               ⟨"t2", "u", 0, none, 0, 0, 0, ["b"]⟩] }

/-- C5 counterexample: on a map whose channel holds two videos with the
same URL, merging the map with itself cross-appends their keywords
(they become ["a", "b"] and ["b", "a"]), so the result is not identical
to the input. -/
theorem merge_channels_idem_cex :
    merge_channels [("A", dupRec)] [("A", dupRec)] ≠ [("A", dupRec)] :=
  fun h =>
    absurd (congrArg (List.map (fun p => p.2.videos.map ChanVideo.keywords)) h)
      (by decide)

/-- A channel record with two stored videos of distinct URLs. -/
def okRec : ChannelRec :=
  { channel_name := "n", channel_id := "A", channel_url := "cu",
    subscriber_count := 1, total_videos := 2, total_channel_views := 0,
    country := "", created_at := none, thumbnail_url := "",
    uploads_playlist_id := "", description := "",
    videos := [⟨"t1", "u1", 0, none, 0, 0, 0, ["a"]⟩,
               ⟨"t2", "u2", 0, none, 0, 0, 0, ["b"]⟩] }

/-- Witness for `merge_channels_idem` on a concrete distinct-URL map. -/
theorem merge_channels_idem_wit :
    ((keysA [("A", okRec)]).Nodup ∧
      (∀ p ∈ [(("A" : String), okRec)], (p.2.videos.map ChanVideo.url).Nodup)) ∧
    merge_channels [("A", okRec)] [("A", okRec)] = [("A", okRec)] :=
  ⟨⟨by decide, by decide⟩,
    merge_channels_idem [("A", okRec)] (by decide) (by decide)⟩

/-- C9: `merge_channels` mutates the record objects its first argument
references.  With `existing` and `incoming` dicts pointing at distinct
record objects that share channel id "A", where the incoming record
holds one video of a fresh URL and one video that re-tags a stored URL
with a new keyword, the call (i) returns a dict still pointing at the
existing record object, (ii) has appended the incoming video pointer to
that object's video list, and (iii) has appended the new keyword to the
stored video object — so the map passed as `existing` no longer reads
back unchanged. -/
theorem merge_channels_mutates_existing (v1 v2 v3 : ChanVideo)
    (E N : ChannelRecG ℕ) (k : String)
    (h21 : v2.url ≠ v1.url) (h31 : v3.url = v1.url) (h3k : v3.keywords = [k])
    (hk1 : k ∉ v1.keywords) (hE : E.videos = [0]) (hN : N.videos = [1, 2]) :
    merge_channelsH ⟨[E, N], [v1, v2, v3]⟩ [("A", 0)] [("A", 1)] =
      ([("A", 0)],
        ⟨[{ E with videos := [0, 1] }, N],
         [{ v1 with keywords := v1.keywords ++ [k] }, v2, v3]⟩) ∧
    ({ E with videos := ([0, 1] : List ℕ) } : ChannelRecG ℕ) ≠ E := by
  constructor
  · simp [merge_channelsH, mergeVideoStepH, kwMergeH, readChan, readVid,
      writeChan, writeVid, hE, hN, h31, h3k, hk1, h21]
  · intro heq
    have hv := congrArg ChannelRecG.videos heq
    rw [hE] at hv
    simp at hv

/-- Concrete video objects for the mutation witness. -/
def vW1 : ChanVideo := ⟨"t1", "u1", 0, none, 0, 0, 0, ["a"]⟩

def vW2 : ChanVideo := ⟨"t2", "u2", 0, none, 0, 0, 0, ["b"]⟩

def vW3 : ChanVideo := ⟨"t3", "u1", 0, none, 0, 0, 0, ["b"]⟩

/-- Concrete existing-side channel record object (points at video 0). -/
def EW : ChannelRecG ℕ :=
  { channel_name := "n", channel_id := "A", channel_url := "cu",
    subscriber_count := 1, total_videos := 1, total_channel_views := 0,
    country := "", created_at := none, thumbnail_url := "",
    uploads_playlist_id := "", description := "", videos := [0] }

/-- Concrete incoming-side channel record object (points at videos 1, 2). -/
def NW : ChannelRecG ℕ :=
  { channel_name := "n", channel_id := "A", channel_url := "cu",
    subscriber_count := 1, total_videos := 2, total_channel_views := 0,
    country := "", created_at := none, thumbnail_url := "",
    uploads_playlist_id := "", description := "", videos := [1, 2] }

/-- Witness for `merge_channels_mutates_existing` at concrete objects. -/
theorem merge_channels_mutates_existing_wit :
    (vW2.url ≠ vW1.url ∧ vW3.url = vW1.url ∧ vW3.keywords = ["b"] ∧
      ("b" : String) ∉ vW1.keywords ∧ EW.videos = [0] ∧ NW.videos = [1, 2]) ∧
    (merge_channelsH ⟨[EW, NW], [vW1, vW2, vW3]⟩ [("A", 0)] [("A", 1)] =
        ([("A", 0)],
          ⟨[{ EW with videos := [0, 1] }, NW],
           [{ vW1 with keywords := vW1.keywords ++ ["b"] }, vW2, vW3]⟩) ∧
      ({ EW with videos := ([0, 1] : List ℕ) } : ChannelRecG ℕ) ≠ EW) :=
  ⟨⟨by decide, by decide, by decide, by decide, by decide, by decide⟩,
    merge_channels_mutates_existing vW1 vW2 vW3 EW NW "b" (by decide) (by decide)
      (by decide) (by decide) (by decide) (by decide)⟩

end MT
